import Mathlib

/-!
Shallow embedding of the Sentiment & Comparison Aggregation Engine of
SentiStock-Analytics (`src/app.py`).

Python floats are modelled as `ℚ`; the float literal `0.1` of the source is
modelled as the exact rational `1/10`.  Where the source can divide a float
by zero (the comparison-chart normalization), the outcome is modelled by a
dedicated value type `PVal` recording NaN and ±infinity, following IEEE-754
as Python/pandas floats do.  Strings produced by the source's f-strings are
modelled by an explicit two-decimal renderer `fmt2div`, whose arithmetic is
carried out exactly on integers.
-/

namespace SentiStock

/-- `get_sentiment_color` from `src/app.py` lines 30–33. -/
def get_sentiment_color (score : ℚ) : String :=
  if score > 1/10 then "green"
  else if score < -(1/10) then "red"
  else "orange"

/-- `get_sentiment_label` from `src/app.py` lines 35–38. -/
def get_sentiment_label (score : ℚ) : String :=
  if score > 1/10 then "BULLISH 🚀"
  else if score < -(1/10) then "BEARISH 📉"
  else "NEUTRAL 😐"

/-- Round-half-even of the exact rational `a / b` (for `b > 0`), the rounding
Python uses when formatting with `:.2f`. -/
def roundHalfEvenFrac (a b : ℤ) : ℤ :=
  let f : ℤ := a.fdiv b
  let r2 : ℤ := 2 * (a - f * b)
  if r2 < b then f
  else if r2 > b then f + 1
  else if f % 2 = 0 then f else f + 1

/-- Model of the Python f-string rendering of `num / d` with exactly two
decimal digits (format spec `:.2f`): optional minus sign, integer part, dot,
two fractional digits.  The division by `d` and the rounding are carried out
exactly on the rational `num / d`, via its numerator and denominator. -/
def fmt2div (num : ℚ) (d : ℕ) : String :=
  let n : ℤ := roundHalfEvenFrac (num.num * 100) (num.den * d)
  let sgn : String := if n < 0 then "-" else ""
  let m : ℕ := n.natAbs
  sgn ++ toString (m / 100) ++ "." ++ (if m % 100 < 10 then "0" else "") ++ toString (m % 100)

/-- `format_large_number` from `src/app.py` lines 40–45.  Each branch of the
source divides by a power of ten and renders with `:.2f`; here that is
`fmt2div num d`, the exact rendering of `num / d`. -/
def format_large_number : Option ℚ → String
  | none => "N/A"
  | some num =>
    if num ≥ 1000000000000 then "$" ++ fmt2div num 1000000000000 ++ "T"
    else if num ≥ 1000000000 then "$" ++ fmt2div num 1000000000 ++ "B"
    else if num ≥ 1000000 then "$" ++ fmt2div num 1000000 ++ "M"
    else "$" ++ fmt2div num 1

/-- Outcome of a Python float computation: a finite value, NaN, or ±∞. -/
inductive PVal where
  | num (q : ℚ)
  | nan
  | inf
  | neginf
  deriving DecidableEq

/-- Float division of finite values: exact when the divisor is nonzero;
on division by zero it yields ±∞ or NaN following IEEE-754, as Python and
pandas floats do. -/
def pdiv (a b : ℚ) : PVal :=
  if b ≠ 0 then .num (a / b)
  else if a > 0 then .inf
  else if a < 0 then .neginf
  else .nan

/-- Multiplication of a float outcome by the finite constant 100. -/
def pmul100 : PVal → PVal
  | .num q => .num (q * 100)
  | .nan => .nan
  | .inf => .inf
  | .neginf => .neginf

/-- The comparison-chart normalization of `src/app.py` lines 109–112: when
the history is empty nothing is produced; otherwise every close is mapped to
`((close - start_price) / start_price) * 100` where `start_price` is the
first close. -/
def normalizeHist (hist : List ℚ) : List PVal :=
  match hist with
  | [] => []
  | c0 :: rest => (c0 :: rest).map (fun c => pmul100 (pdiv (c - c0) c0))

/-- The per-item polarity stored by `src/app.py` lines 151–154: the raw
result of the external scorer (`blob.sentiment.polarity`) is stored and
accumulated unchanged. -/
def item_polarity (raw : ℚ) : ℚ := raw

/-- Clamping to `[-1, 1]`. Modelled from the spec: the spec (§4.1) demands
that the core "clamp any out-of-range result to [-1,1] before use"; no such
operation exists in `src/app.py`.  Used only to compare the code's behaviour
against the spec's words. -/
def clamp (x : ℚ) : ℚ := max (-1) (min x 1)

/-- The sentiment average of `src/app.py` lines 141–158: the polarities are
summed and, when the news list is non-empty, divided by its length;
otherwise the average is 0. -/
def avg_polarity (ps : List ℚ) : ℚ :=
  if ps ≠ [] then ps.sum / (ps.length : ℚ) else 0

/-- The per-item emoji classification of `src/app.py` line 170. -/
def itemEmoji (p : ℚ) : String :=
  if p > 1/10 then "🟢"
  else if p < -(1/10) then "🔴"
  else "🟡"

/-- The quote fields consulted by the snapshot metrics of `src/app.py`
lines 91–94; a missing key is `none`. -/
structure QuoteFields where
  currentPrice : Option ℚ
  regularMarketPrice : Option ℚ
  previousClose : Option ℚ

/-- `src/app.py` line 91: `info.get('currentPrice',
info.get('regularMarketPrice', 0))`. -/
def resolve_current_price (info : QuoteFields) : ℚ :=
  info.currentPrice.getD (info.regularMarketPrice.getD 0)

/-- `src/app.py` line 92: `info.get('previousClose', current_price)`. -/
def resolve_previous_close (info : QuoteFields) : ℚ :=
  info.previousClose.getD (resolve_current_price info)

/-- `src/app.py` line 93: `delta = current_price - previous_close`. -/
def delta (info : QuoteFields) : ℚ :=
  resolve_current_price info - resolve_previous_close info

/-- `src/app.py` line 94: `delta_percent = (delta / previous_close) * 100 if
previous_close else 0`; a zero `previous_close` is falsy in Python. -/
def delta_percent (info : QuoteFields) : ℚ :=
  if resolve_previous_close info ≠ 0 then delta info / resolve_previous_close info * 100
  else 0

/-- C4: for every average polarity `a`: if `a > 0.1` the classification is
BULLISH with color green; if `a < -0.1` it is BEARISH with color red;
otherwise NEUTRAL with color orange; in particular `a = 0.1` classifies
NEUTRAL because the comparison is strict. -/
theorem C4_thresholds (a : ℚ) :
    (a > 1/10 → get_sentiment_label a = "BULLISH 🚀" ∧ get_sentiment_color a = "green") ∧
    (a < -(1/10) → get_sentiment_label a = "BEARISH 📉" ∧ get_sentiment_color a = "red") ∧
    (¬ a > 1/10 → ¬ a < -(1/10) →
      get_sentiment_label a = "NEUTRAL 😐" ∧ get_sentiment_color a = "orange") ∧
    get_sentiment_label (1/10) = "NEUTRAL 😐" ∧ get_sentiment_color (1/10) = "orange" := by
  refine ⟨?_, ?_, ?_, ?_, ?_⟩
  · intro h
    constructor
    · unfold get_sentiment_label; rw [if_pos h]
    · unfold get_sentiment_color; rw [if_pos h]
  · intro h
    have h2 : ¬ a > 1/10 := by linarith
    constructor
    · unfold get_sentiment_label; rw [if_neg h2, if_pos h]
    · unfold get_sentiment_color; rw [if_neg h2, if_pos h]
  · intro h1 h2
    constructor
    · unfold get_sentiment_label; rw [if_neg h1, if_neg h2]
    · unfold get_sentiment_color; rw [if_neg h1, if_neg h2]
  · norm_num [get_sentiment_label]
  · norm_num [get_sentiment_color]

/-- Witness for C4 at concrete inputs. -/
theorem C4_thresholds_witness :
    (get_sentiment_label (2/10) = "BULLISH 🚀" ∧ get_sentiment_color (2/10) = "green") ∧
    (get_sentiment_label (-(2/10)) = "BEARISH 📉" ∧ get_sentiment_color (-(2/10)) = "red") ∧
    (get_sentiment_label 0 = "NEUTRAL 😐" ∧ get_sentiment_color 0 = "orange") ∧
    get_sentiment_label (1/10) = "NEUTRAL 😐" := by
  refine ⟨(C4_thresholds (2/10)).1 (by norm_num),
          (C4_thresholds (-(2/10))).2.1 (by norm_num),
          (C4_thresholds 0).2.2.1 (by norm_num) (by norm_num),
          (C4_thresholds 0).2.2.2.1⟩

/-- C5: the per-item emoji classification and the aggregate classification
use identical thresholds and agree: a single item with polarity `p` is
classified the same standalone as when it is the sole item of the aggregate;
in particular `p = 0.15` classifies bullish in both. -/
theorem C5_shared_thresholds (p : ℚ) :
    avg_polarity [p] = p ∧
    (itemEmoji p = "🟢" ↔ get_sentiment_label (avg_polarity [p]) = "BULLISH 🚀") ∧
    (itemEmoji p = "🔴" ↔ get_sentiment_label (avg_polarity [p]) = "BEARISH 📉") ∧
    (itemEmoji p = "🟡" ↔ get_sentiment_label (avg_polarity [p]) = "NEUTRAL 😐") ∧
    itemEmoji (15/100) = "🟢" ∧
    get_sentiment_label (avg_polarity [(15/100 : ℚ)]) = "BULLISH 🚀" := by
  have havg : avg_polarity [p] = p := by
    simp [avg_polarity]
  have havg2 : avg_polarity [(15/100 : ℚ)] = 15/100 := by
    simp [avg_polarity]
  refine ⟨havg, ?_, ?_, ?_, ?_, ?_⟩
  · rw [havg]
    unfold itemEmoji get_sentiment_label
    split_ifs <;> simp
  · rw [havg]
    unfold itemEmoji get_sentiment_label
    split_ifs <;> simp
  · rw [havg]
    unfold itemEmoji get_sentiment_label
    split_ifs <;> simp
  · norm_num [itemEmoji]
  · rw [havg2]
    norm_num [get_sentiment_label]

/-- C7: the average polarity equals the sum of the item polarities divided by
the exact item count when the count is positive; for an empty news list the
average is 0 with label NEUTRAL and color orange. -/
theorem C7_average (ps : List ℚ) :
    (ps ≠ [] → avg_polarity ps = ps.sum / (ps.length : ℚ)) ∧
    avg_polarity [] = 0 ∧
    get_sentiment_label (avg_polarity []) = "NEUTRAL 😐" ∧
    get_sentiment_color (avg_polarity []) = "orange" := by
  have he : avg_polarity [] = 0 := by simp [avg_polarity]
  refine ⟨fun h => by simp [avg_polarity, h], he, ?_, ?_⟩
  · rw [he]; norm_num [get_sentiment_label]
  · rw [he]; norm_num [get_sentiment_color]

/-- Witness for C7 at a concrete two-item list and the empty list. -/
theorem C7_average_witness :
    avg_polarity [1/2, 1/4] = (([1/2, 1/4] : List ℚ).sum / ((2 : ℕ) : ℚ)) ∧
    avg_polarity [] = 0 := by
  refine ⟨?_, (C7_average []).2.1⟩
  have h := (C7_average [1/2, 1/4]).1 (by simp)
  simpa using h

/-- C8: `format_large` returns "N/A" for `None`; the branch bounds are
inclusive (exactly 1e12, 1e9, 1e6 take the larger-unit branch); each branch
divides by its power of ten and renders with exactly two decimals, so
`format_large(1_000_000_000) = "$1.00B"` and `format_large(999) = "$999.00"`. -/
theorem C8_format_large (v : ℚ) :
    format_large_number none = "N/A" ∧
    format_large_number (some 1000000000) = "$1.00B" ∧
    format_large_number (some 999) = "$999.00" ∧
    format_large_number (some 1000000000000) = "$1.00T" ∧
    format_large_number (some 1000000) = "$1.00M" ∧
    (v ≥ 1000000000000 → format_large_number (some v) = "$" ++ fmt2div v 1000000000000 ++ "T") ∧
    (¬ v ≥ 1000000000000 → v ≥ 1000000000 →
      format_large_number (some v) = "$" ++ fmt2div v 1000000000 ++ "B") ∧
    (¬ v ≥ 1000000000 → v ≥ 1000000 →
      format_large_number (some v) = "$" ++ fmt2div v 1000000 ++ "M") ∧
    (¬ v ≥ 1000000 → format_large_number (some v) = "$" ++ fmt2div v 1) := by
  refine ⟨by decide, by decide, by decide, by decide, by decide, ?_, ?_, ?_, ?_⟩
  · intro h1
    simp only [format_large_number, if_pos h1]
  · intro h1 h2
    simp only [format_large_number, if_neg h1, if_pos h2]
  · intro h1 h2
    have h0 : ¬ v ≥ 1000000000000 := by intro hc; exact h1 (by linarith)
    simp only [format_large_number, if_neg h0, if_neg h1, if_pos h2]
  · intro h1
    have h0 : ¬ v ≥ 1000000000000 := by intro hc; exact h1 (by linarith)
    have h0b : ¬ v ≥ 1000000000 := by intro hc; exact h1 (by linarith)
    simp only [format_large_number, if_neg h0, if_neg h0b, if_neg h1]

/-- Witness for C8 branch statements at concrete inputs. -/
theorem C8_format_large_witness :
    format_large_number (some 2000000000000) = "$" ++ fmt2div 2000000000000 1000000000000 ++ "T" ∧
    format_large_number (some 5000000000) = "$" ++ fmt2div 5000000000 1000000000 ++ "B" ∧
    format_large_number (some 5000000) = "$" ++ fmt2div 5000000 1000000 ++ "M" ∧
    format_large_number (some 999) = "$" ++ fmt2div 999 1 := by
  refine ⟨(C8_format_large 2000000000000).2.2.2.2.2.1 (by norm_num),
          (C8_format_large 5000000000).2.2.2.2.2.2.1 (by norm_num) (by norm_num),
          (C8_format_large 5000000).2.2.2.2.2.2.2.1 (by norm_num) (by norm_num),
          (C8_format_large 999).2.2.2.2.2.2.2.2 (by norm_num)⟩

/-- C3 counterexample: the source's `format_large_number` makes no use of the
absolute value, so the negative input -2e9 falls through every `>=` branch
and is rendered plain, not as a billions value. -/
theorem C3_counterexample :
    format_large_number (some (-2000000000)) = "$-2000000000.00" ∧
    format_large_number (some (-2000000000)) ≠ "$-2.00B" := by
  exact ⟨by decide, by decide⟩

/-- C3 amended: every negative value fails all three inclusive `>=` magnitude
tests, so it takes the plain branch and is rendered with its sign and two
decimals, with no unit suffix. -/
theorem C3_amended (v : ℚ) (hv : v < 0) :
    format_large_number (some v) = "$" ++ fmt2div v 1 := by
  have h1 : ¬ v ≥ 1000000000000 := by intro hc; linarith
  have h2 : ¬ v ≥ 1000000000 := by intro hc; linarith
  have h3 : ¬ v ≥ 1000000 := by intro hc; linarith
  simp only [format_large_number, if_neg h1, if_neg h2, if_neg h3]

/-- Witness for the amended C3 at -2e9. -/
theorem C3_amended_witness :
    format_large_number (some (-2000000000)) = "$" ++ fmt2div (-2000000000) 1 :=
  C3_amended (-2000000000) (by norm_num)

/-- C1, evaluated at the failing input: for a history whose first close is 0
the normalization loop divides by zero and produces a non-empty series of
NaN/infinite values, signalling no error condition; for an empty history it
produces an empty series. -/
theorem C1_degenerate_eval :
    normalizeHist [] = [] ∧
    normalizeHist [0, 1] = [PVal.nan, PVal.inf] ∧
    (normalizeHist [0, 1]).length ≠ 0 := by
  have h1 : pdiv ((0 : ℚ) - 0) 0 = PVal.nan := by
    unfold pdiv
    norm_num
  have h2 : pdiv ((1 : ℚ) - 0) 0 = PVal.inf := by
    unfold pdiv
    norm_num
  have hlist : normalizeHist [0, 1] = [PVal.nan, PVal.inf] := by
    show List.map _ _ = _
    rw [List.map_cons, List.map_cons, List.map_nil, h1, h2]
    rfl
  exact ⟨rfl, hlist, by rw [hlist]; simp⟩

/-- C2 counterexample: the code stores the scorer's raw result without any
clamping (`src/app.py` lines 151–154), so an out-of-range scorer output 2 is
used as-is and the resulting average leaves `[-1, 1]`. -/
theorem C2_counterexample :
    item_polarity 2 ≠ clamp 2 ∧ ¬ avg_polarity [item_polarity 2] ≤ 1 := by
  constructor
  · unfold item_polarity clamp
    norm_num
  · unfold item_polarity avg_polarity
    rw [if_pos (show ([2] : List ℚ) ≠ [] by simp)]
    norm_num

/-- Mapping the stored per-item polarity over a list changes nothing: the
source stores each raw score unmodified. -/
theorem map_item_polarity (l : List ℚ) : l.map item_polarity = l := by
  induction l with
  | nil => rfl
  | cons a t ih =>
    rw [List.map_cons, ih]
    rfl

/-- C2 amended: the polarity the core uses equals the scorer's raw result
unchanged (no clamping is performed), and the average lies in `[-1, 1]`
provided every raw scorer output does. -/
theorem C2_amended (raws : List ℚ) (h : ∀ r ∈ raws, -1 ≤ r ∧ r ≤ 1) :
    (∀ r, item_polarity r = r) ∧
    -1 ≤ avg_polarity (raws.map item_polarity) ∧
    avg_polarity (raws.map item_polarity) ≤ 1 := by
  have hmap : raws.map item_polarity = raws := map_item_polarity raws
  have hb : -1 ≤ avg_polarity raws ∧ avg_polarity raws ≤ 1 := by
    unfold avg_polarity
    by_cases hne : raws = []
    · subst hne
      norm_num
    · rw [if_pos hne]
      have hlp : 0 < raws.length := List.length_pos.mpr hne
      have hlen : 0 < (raws.length : ℚ) := by exact_mod_cast hlp
      have hub : raws.sum ≤ (raws.length : ℚ) := by
        have h2 := List.sum_le_card_nsmul raws 1 fun x hx => (h x hx).2
        simpa [nsmul_eq_mul] using h2
      have hlb : -(raws.length : ℚ) ≤ raws.sum := by
        have h2 := List.card_nsmul_le_sum raws (-1) fun x hx => (h x hx).1
        simpa [nsmul_eq_mul] using h2
      constructor
      · rw [le_div_iff₀ hlen]
        linarith
      · rw [div_le_one hlen]
        exact hub
  refine ⟨fun r => rfl, ?_, ?_⟩
  · rw [hmap]
    exact hb.1
  · rw [hmap]
    exact hb.2

/-- Witness for the amended C2 at a concrete two-item list. -/
theorem C2_amended_witness :
    -1 ≤ avg_polarity ([1/2, -(1/4)].map item_polarity) ∧
    avg_polarity ([1/2, -(1/4)].map item_polarity) ≤ 1 := by
  have h := C2_amended [1/2, -(1/4)] ?_
  · exact ⟨h.2.1, h.2.2⟩
  · intro r hr
    simp only [List.mem_cons, List.not_mem_nil, or_false] at hr
    rcases hr with h1 | h1 <;> rw [h1] <;> norm_num

/-- C6: for a non-empty history whose first close is nonzero, the normalized
series preserves length and order, its first element is exactly 0, and the
element at every index `i` is `(close[i] - close[0]) / close[0] * 100`. -/
theorem C6_normalize (hist : List ℚ) (c0 : ℚ) (hh : hist.head? = some c0)
    (h0 : c0 ≠ 0) :
    (normalizeHist hist).length = hist.length ∧
    (normalizeHist hist).head? = some (PVal.num 0) ∧
    ∀ (i : ℕ) (c : ℚ), hist[i]? = some c →
      (normalizeHist hist)[i]? = some (PVal.num ((c - c0) / c0 * 100)) := by
  cases hist with
  | nil => cases hh
  | cons a rest =>
    have ha : a = c0 := by simpa using hh
    subst ha
    have hmap : normalizeHist (a :: rest)
        = (a :: rest).map (fun c => pmul100 (pdiv (c - a) a)) := rfl
    refine ⟨?_, ?_, ?_⟩
    · rw [hmap, List.length_map]
    · rw [hmap, List.map_cons, List.head?_cons]
      unfold pdiv
      rw [if_pos h0, sub_self, zero_div]
      simp [pmul100]
    · intro i c hc
      rw [hmap, List.getElem?_map, hc, Option.map_some']
      unfold pdiv
      rw [if_pos h0]
      rfl

/-- Witness for C6 at the concrete history `[2, 3]`. -/
theorem C6_normalize_witness :
    (normalizeHist [2, 3]).length = ([2, 3] : List ℚ).length ∧
    (normalizeHist [2, 3]).head? = some (PVal.num 0) ∧
    (normalizeHist [2, 3])[1]? = some (PVal.num ((3 - 2) / 2 * 100)) := by
  obtain ⟨hl, hh, hi⟩ := C6_normalize [2, 3] 2 rfl (by norm_num)
  exact ⟨hl, hh, hi 1 3 rfl⟩

/-- C9: the snapshot metrics resolve `current_price` with the fallback chain
currentPrice, else regularMarketPrice, else 0; `delta` is the difference to
the resolved previous close; `delta_percent` is `delta / previous_close *
100`, defined as 0 when the previous close is 0 (Python falsy guard). -/
theorem C9_snapshot (info : QuoteFields) (c r : ℚ) :
    (info.currentPrice = some c → resolve_current_price info = c) ∧
    (info.currentPrice = none → info.regularMarketPrice = some r →
      resolve_current_price info = r) ∧
    (info.currentPrice = none → info.regularMarketPrice = none →
      resolve_current_price info = 0) ∧
    delta info = resolve_current_price info - resolve_previous_close info ∧
    (resolve_previous_close info = 0 → delta_percent info = 0) ∧
    (resolve_previous_close info ≠ 0 →
      delta_percent info = delta info / resolve_previous_close info * 100) := by
  refine ⟨?_, ?_, ?_, rfl, ?_, ?_⟩
  · intro h
    simp [resolve_current_price, h]
  · intro h1 h2
    simp [resolve_current_price, h1, h2]
  · intro h1 h2
    simp [resolve_current_price, h1, h2]
  · intro h
    simp [delta_percent, h]
  · intro h
    unfold delta_percent
    rw [if_pos h]

/-- Witness for C9 at concrete quote-field records. -/
theorem C9_snapshot_witness :
    resolve_current_price ⟨some 12, none, some 8⟩ = 12 ∧
    resolve_current_price ⟨none, some 7, none⟩ = 7 ∧
    resolve_current_price ⟨none, none, none⟩ = 0 ∧
    delta_percent ⟨some 12, none, some 0⟩ = 0 ∧
    delta_percent ⟨some 12, none, some 8⟩ =
      delta ⟨some 12, none, some 8⟩ / resolve_previous_close ⟨some 12, none, some 8⟩ * 100 := by
  refine ⟨(C9_snapshot ⟨some 12, none, some 8⟩ 12 0).1 rfl,
          (C9_snapshot ⟨none, some 7, none⟩ 0 7).2.1 rfl rfl,
          (C9_snapshot ⟨none, none, none⟩ 0 0).2.2.1 rfl rfl,
          (C9_snapshot ⟨some 12, none, some 0⟩ 0 0).2.2.2.2.1 rfl,
          (C9_snapshot ⟨some 12, none, some 8⟩ 0 0).2.2.2.2.2 ?_⟩
  norm_num [resolve_previous_close]

/-- C10 (implicit): when the quote fields contain no previous-close value the
builder substitutes the resolved current price for it, so the ticker shows as
unchanged: `delta = 0` and `delta_percent = 0`. -/
theorem C10_missing_previous_close (info : QuoteFields)
    (h : info.previousClose = none) :
    resolve_previous_close info = resolve_current_price info ∧
    delta info = 0 ∧ delta_percent info = 0 := by
  have hp : resolve_previous_close info = resolve_current_price info := by
    simp [resolve_previous_close, h]
  have hd : delta info = 0 := by
    rw [delta, hp, sub_self]
  refine ⟨hp, hd, ?_⟩
  unfold delta_percent
  split_ifs with hne
  · rw [hd, zero_div, zero_mul]
  · rfl

/-- Witness for C10 at a record with no previous close. -/
theorem C10_missing_previous_close_witness :
    delta ⟨some 5, none, none⟩ = 0 ∧ delta_percent ⟨some 5, none, none⟩ = 0 := by
  obtain ⟨_, h2, h3⟩ := C10_missing_previous_close ⟨some 5, none, none⟩ rfl
  exact ⟨h2, h3⟩

end SentiStock
